import Mathlib

/-!
Verification development for the beverost error taxonomy
(src/errors.ts, src/logger.ts).

Shallow embedding conventions:
* A JavaScript object under construction is modelled as a record whose
  fields are all `Option`-valued; a field still unassigned holds `none`
  (JavaScript `undefined`).
* Template-literal interpolation of a possibly-undefined value is
  `jsStrOfStr` / `jsStrOfNum` (`undefined` prints as the text `undefined`).
* The conditional clauses `x ? s : ''` in the `log` bodies test JavaScript
  truthiness, embedded by `jsTruthyStr` (empty string falsy),
  `jsTruthyNum` (zero falsy) and `jsTruthyArr` (every array truthy).
* The bound logger is abstracted as the list of messages passed to its
  `error` operation: an operation returns `(object, emissions)`.
* `K.construct` models `new K(...)` after a successful logger binding,
  with the statement order of the compiled constructor: the `BaseError`
  constructor body (name and message assigned, then `this.log()`) runs
  before the parameter-property assignments of the subclass.
-/

/-- JavaScript string interpolation of a possibly-undefined string. -/
def jsStrOfStr : Option String → String
  | none => "undefined"
  | some s => s

/-- JavaScript string interpolation of a possibly-undefined number. -/
def jsStrOfNum : Option Int → String
  | none => "undefined"
  | some n => toString n

/-- JavaScript truthiness of a possibly-undefined string. -/
def jsTruthyStr : Option String → Bool
  | none => false
  | some s => if s = "" then false else true

/-- JavaScript truthiness of a possibly-undefined number. -/
def jsTruthyNum : Option Int → Bool
  | none => false
  | some n => if n = 0 then false else true

/-- JavaScript truthiness of a possibly-undefined array: every array is truthy. -/
def jsTruthyArr : Option (List String) → Bool
  | none => false
  | some _ => true

/-- JavaScript `Array.prototype.join(", ")`. -/
def jsJoin (xs : List String) : String :=
  String.intercalate ", " xs

/-- `BaseError.toString`: returns `this.name ++ ": " ++ this.message`. -/
def baseToString (name message : Option String) : String :=
  jsStrOfStr name ++ ": " ++ jsStrOfStr message

/-- The `ApiError` object: `name`/`message` from `BaseError`,
`status` and `requestId` parameter properties. -/
structure ApiError where
  name : Option String
  message : Option String
  status : Option Int
  requestId : Option String
deriving Repr, DecidableEq

/-- Body of `ApiError.log`, reading the current object state. -/
def ApiError.logMsg (o : ApiError) : String :=
  "API Error " ++ jsStrOfNum o.status ++ ": " ++ jsStrOfStr o.message ++
    (if jsTruthyStr o.requestId then
      " (Request ID: " ++ jsStrOfStr o.requestId ++ ")" else "")

/-- `new ApiError(status, message, requestId?)`: the base constructor sets
`name` and `message` and calls `this.log()`; the parameter properties
`status` and `requestId` are assigned only afterwards. -/
def ApiError.construct (status : Int) (message : String)
    (requestId : Option String) : ApiError × List String :=
  let o : ApiError :=
    { name := some "ApiError", message := some message,
      status := none, requestId := none }
  let e := ApiError.logMsg o
  ({ o with status := some status, requestId := requestId }, [e])

/-- A later call of `ApiError.log`: one `error`-level emission, no mutation. -/
def ApiError.log (o : ApiError) : ApiError × List String :=
  (o, [ApiError.logMsg o])

/-- Rendering rule for ApiError as written in the specification:
template `API Error {status}: {message}[ (Request ID: {requestId})]`,
the bracketed clause appended exactly when the optional field is present. -/
def ApiError.specRender (status : Int) (message : String)
    (requestId : Option String) : String :=
  "API Error " ++ toString status ++ ": " ++ message ++
    (match requestId with
     | none => ""
     | some r => " (Request ID: " ++ r ++ ")")

/-- JavaScript interpolation of `fields.join(", ")` on a possibly-undefined array. -/
def jsJoinArr : Option (List String) → String
  | none => "undefined"
  | some xs => jsJoin xs

/-- The `NetworkError` object. -/
structure NetworkError where
  name : Option String
  message : Option String
  code : Option String
deriving Repr, DecidableEq

/-- Body of `NetworkError.log`. -/
def NetworkError.logMsg (o : NetworkError) : String :=
  "Network Error" ++
    (if jsTruthyStr o.code then " (" ++ jsStrOfStr o.code ++ ")" else "") ++
    ": " ++ jsStrOfStr o.message

/-- `new NetworkError(message, code?)`. -/
def NetworkError.construct (message : String) (code : Option String) :
    NetworkError × List String :=
  let o : NetworkError :=
    { name := some "NetworkError", message := some message, code := none }
  let e := NetworkError.logMsg o
  ({ o with code := code }, [e])

/-- A later call of `NetworkError.log`. -/
def NetworkError.log (o : NetworkError) : NetworkError × List String :=
  (o, [NetworkError.logMsg o])

/-- Specification template `Network Error[ ({code})]: {message}`. -/
def NetworkError.specRender (message : String) (code : Option String) : String :=
  "Network Error" ++
    (match code with
     | none => ""
     | some c => " (" ++ c ++ ")") ++
    ": " ++ message

/-- The `ParseError` object. -/
structure ParseError where
  name : Option String
  message : Option String
  source : Option String
deriving Repr, DecidableEq

/-- Body of `ParseError.log`. -/
def ParseError.logMsg (o : ParseError) : String :=
  "Parse Error" ++
    (if jsTruthyStr o.source then " in " ++ jsStrOfStr o.source else "") ++
    ": " ++ jsStrOfStr o.message

/-- `new ParseError(message, source?)`. -/
def ParseError.construct (message : String) (source : Option String) :
    ParseError × List String :=
  let o : ParseError :=
    { name := some "ParseError", message := some message, source := none }
  let e := ParseError.logMsg o
  ({ o with source := source }, [e])

/-- A later call of `ParseError.log`. -/
def ParseError.log (o : ParseError) : ParseError × List String :=
  (o, [ParseError.logMsg o])

/-- Specification template `Parse Error[ in {source}]: {message}`. -/
def ParseError.specRender (message : String) (source : Option String) : String :=
  "Parse Error" ++
    (match source with
     | none => ""
     | some s => " in " ++ s) ++
    ": " ++ message

/-- The `ValidationError` object. -/
structure ValidationError where
  name : Option String
  message : Option String
  fields : Option (List String)
deriving Repr, DecidableEq

/-- Body of `ValidationError.log`.  The conditional tests truthiness of the
array, and every array (including the empty one) is truthy. -/
def ValidationError.logMsg (o : ValidationError) : String :=
  "Validation Error: " ++ jsStrOfStr o.message ++
    (if jsTruthyArr o.fields then " (Fields: " ++ jsJoinArr o.fields ++ ")" else "")

/-- `new ValidationError(message, fields?)`. -/
def ValidationError.construct (message : String) (fields : Option (List String)) :
    ValidationError × List String :=
  let o : ValidationError :=
    { name := some "ValidationError", message := some message, fields := none }
  let e := ValidationError.logMsg o
  ({ o with fields := fields }, [e])

/-- A later call of `ValidationError.log`. -/
def ValidationError.log (o : ValidationError) : ValidationError × List String :=
  (o, [ValidationError.logMsg o])

/-- Specification template `Validation Error: {message}[ (Fields: {fields joined})]`. -/
def ValidationError.specRender (message : String) (fields : Option (List String)) :
    String :=
  "Validation Error: " ++ message ++
    (match fields with
     | none => ""
     | some xs => " (Fields: " ++ jsJoin xs ++ ")")

/-- The `AuthenticationError` object. -/
structure AuthenticationError where
  name : Option String
  message : Option String
  userId : Option String
deriving Repr, DecidableEq

/-- Body of `AuthenticationError.log`. -/
def AuthenticationError.logMsg (o : AuthenticationError) : String :=
  "Authentication Error: " ++ jsStrOfStr o.message ++
    (if jsTruthyStr o.userId then " (User ID: " ++ jsStrOfStr o.userId ++ ")" else "")

/-- `new AuthenticationError(message, userId?)`. -/
def AuthenticationError.construct (message : String) (userId : Option String) :
    AuthenticationError × List String :=
  let o : AuthenticationError :=
    { name := some "AuthenticationError", message := some message, userId := none }
  let e := AuthenticationError.logMsg o
  ({ o with userId := userId }, [e])

/-- A later call of `AuthenticationError.log`. -/
def AuthenticationError.log (o : AuthenticationError) :
    AuthenticationError × List String :=
  (o, [AuthenticationError.logMsg o])

/-- Specification template `Authentication Error: {message}[ (User ID: {userId})]`. -/
def AuthenticationError.specRender (message : String) (userId : Option String) :
    String :=
  "Authentication Error: " ++ message ++
    (match userId with
     | none => ""
     | some u => " (User ID: " ++ u ++ ")")

/-- The `AuthorizationError` object. -/
structure AuthorizationError where
  name : Option String
  message : Option String
  resource : Option String
  action : Option String
deriving Repr, DecidableEq

/-- Body of `AuthorizationError.log`. -/
def AuthorizationError.logMsg (o : AuthorizationError) : String :=
  "Authorization Error: " ++ jsStrOfStr o.message ++
    (if jsTruthyStr o.resource then
      " (Resource: " ++ jsStrOfStr o.resource ++ ")" else "") ++
    (if jsTruthyStr o.action then
      " (Action: " ++ jsStrOfStr o.action ++ ")" else "")

/-- `new AuthorizationError(message, resource?, action?)`. -/
def AuthorizationError.construct (message : String)
    (resource action : Option String) : AuthorizationError × List String :=
  let o : AuthorizationError :=
    { name := some "AuthorizationError", message := some message,
      resource := none, action := none }
  let e := AuthorizationError.logMsg o
  ({ o with resource := resource, action := action }, [e])

/-- A later call of `AuthorizationError.log`. -/
def AuthorizationError.log (o : AuthorizationError) :
    AuthorizationError × List String :=
  (o, [AuthorizationError.logMsg o])

/-- Specification template
`Authorization Error: {message}[ (Resource: {resource})][ (Action: {action})]`. -/
def AuthorizationError.specRender (message : String)
    (resource action : Option String) : String :=
  "Authorization Error: " ++ message ++
    (match resource with
     | none => ""
     | some r => " (Resource: " ++ r ++ ")") ++
    (match action with
     | none => ""
     | some a => " (Action: " ++ a ++ ")")

/-- The `RateLimitError` object. -/
structure RateLimitError where
  name : Option String
  message : Option String
  retryAfter : Option Int
deriving Repr, DecidableEq

/-- Body of `RateLimitError.log`.  The conditional tests truthiness of a
number, so a retryAfter of `0` is treated as absent. -/
def RateLimitError.logMsg (o : RateLimitError) : String :=
  "Rate Limit Error: " ++ jsStrOfStr o.message ++
    (if jsTruthyNum o.retryAfter then
      " (Retry After: " ++ jsStrOfNum o.retryAfter ++ "s)" else "")

/-- `new RateLimitError(message, retryAfter?)`. -/
def RateLimitError.construct (message : String) (retryAfter : Option Int) :
    RateLimitError × List String :=
  let o : RateLimitError :=
    { name := some "RateLimitError", message := some message, retryAfter := none }
  let e := RateLimitError.logMsg o
  ({ o with retryAfter := retryAfter }, [e])

/-- A later call of `RateLimitError.log`. -/
def RateLimitError.log (o : RateLimitError) : RateLimitError × List String :=
  (o, [RateLimitError.logMsg o])

/-- Specification template `Rate Limit Error: {message}[ (Retry After: {retryAfter}s)]`. -/
def RateLimitError.specRender (message : String) (retryAfter : Option Int) :
    String :=
  "Rate Limit Error: " ++ message ++
    (match retryAfter with
     | none => ""
     | some t => " (Retry After: " ++ toString t ++ "s)")

/-- The `DatabaseError` object. -/
structure DatabaseError where
  name : Option String
  message : Option String
  operation : Option String
deriving Repr, DecidableEq

/-- Body of `DatabaseError.log`. -/
def DatabaseError.logMsg (o : DatabaseError) : String :=
  "Database Error: " ++ jsStrOfStr o.message ++
    (if jsTruthyStr o.operation then
      " (Operation: " ++ jsStrOfStr o.operation ++ ")" else "")

/-- `new DatabaseError(message, operation?)`. -/
def DatabaseError.construct (message : String) (operation : Option String) :
    DatabaseError × List String :=
  let o : DatabaseError :=
    { name := some "DatabaseError", message := some message, operation := none }
  let e := DatabaseError.logMsg o
  ({ o with operation := operation }, [e])

/-- A later call of `DatabaseError.log`. -/
def DatabaseError.log (o : DatabaseError) : DatabaseError × List String :=
  (o, [DatabaseError.logMsg o])

/-- Specification template `Database Error: {message}[ (Operation: {operation})]`. -/
def DatabaseError.specRender (message : String) (operation : Option String) :
    String :=
  "Database Error: " ++ message ++
    (match operation with
     | none => ""
     | some op => " (Operation: " ++ op ++ ")")

/-- The `ConfigurationError` object. -/
structure ConfigurationError where
  name : Option String
  message : Option String
  configKey : Option String
deriving Repr, DecidableEq

/-- Body of `ConfigurationError.log`. -/
def ConfigurationError.logMsg (o : ConfigurationError) : String :=
  "Configuration Error: " ++ jsStrOfStr o.message ++
    (if jsTruthyStr o.configKey then
      " (Config Key: " ++ jsStrOfStr o.configKey ++ ")" else "")

/-- `new ConfigurationError(message, configKey?)`. -/
def ConfigurationError.construct (message : String) (configKey : Option String) :
    ConfigurationError × List String :=
  let o : ConfigurationError :=
    { name := some "ConfigurationError", message := some message, configKey := none }
  let e := ConfigurationError.logMsg o
  ({ o with configKey := configKey }, [e])

/-- A later call of `ConfigurationError.log`. -/
def ConfigurationError.log (o : ConfigurationError) :
    ConfigurationError × List String :=
  (o, [ConfigurationError.logMsg o])

/-- Specification template `Configuration Error: {message}[ (Config Key: {configKey})]`. -/
def ConfigurationError.specRender (message : String) (configKey : Option String) :
    String :=
  "Configuration Error: " ++ message ++
    (match configKey with
     | none => ""
     | some k => " (Config Key: " ++ k ++ ")")

/-- The `ExternalServiceError` object: `serviceName` is a required field. -/
structure ExternalServiceError where
  name : Option String
  message : Option String
  serviceName : Option String
deriving Repr, DecidableEq

/-- Body of `ExternalServiceError.log`: `serviceName` is interpolated
unconditionally. -/
def ExternalServiceError.logMsg (o : ExternalServiceError) : String :=
  "External Service Error (" ++ jsStrOfStr o.serviceName ++ "): " ++
    jsStrOfStr o.message

/-- `new ExternalServiceError(message, serviceName)`. -/
def ExternalServiceError.construct (message serviceName : String) :
    ExternalServiceError × List String :=
  let o : ExternalServiceError :=
    { name := some "ExternalServiceError", message := some message,
      serviceName := none }
  let e := ExternalServiceError.logMsg o
  ({ o with serviceName := some serviceName }, [e])

/-- A later call of `ExternalServiceError.log`. -/
def ExternalServiceError.log (o : ExternalServiceError) :
    ExternalServiceError × List String :=
  (o, [ExternalServiceError.logMsg o])

/-- Specification template `External Service Error ({serviceName}): {message}`. -/
def ExternalServiceError.specRender (message serviceName : String) : String :=
  "External Service Error (" ++ serviceName ++ "): " ++ message

/-- The `FileNotFoundError` object. -/
structure FileNotFoundError where
  name : Option String
  message : Option String
  path : Option String
deriving Repr, DecidableEq

/-- Body of `FileNotFoundError.log`. -/
def FileNotFoundError.logMsg (o : FileNotFoundError) : String :=
  "File Not Found Error: " ++ jsStrOfStr o.message ++
    (if jsTruthyStr o.path then " (Path: " ++ jsStrOfStr o.path ++ ")" else "")

/-- `new FileNotFoundError(message, path?)`. -/
def FileNotFoundError.construct (message : String) (path : Option String) :
    FileNotFoundError × List String :=
  let o : FileNotFoundError :=
    { name := some "FileNotFoundError", message := some message, path := none }
  let e := FileNotFoundError.logMsg o
  ({ o with path := path }, [e])

/-- A later call of `FileNotFoundError.log`. -/
def FileNotFoundError.log (o : FileNotFoundError) :
    FileNotFoundError × List String :=
  (o, [FileNotFoundError.logMsg o])

/-- Specification template `File Not Found Error: {message}[ (Path: {path})]`. -/
def FileNotFoundError.specRender (message : String) (path : Option String) :
    String :=
  "File Not Found Error: " ++ message ++
    (match path with
     | none => ""
     | some p => " (Path: " ++ p ++ ")")

/-- The `LogDirectoryNotFoundError` object: `directoryPath` is required. -/
structure LogDirectoryNotFoundError where
  name : Option String
  message : Option String
  directoryPath : Option String
deriving Repr, DecidableEq

/-- Body of `LogDirectoryNotFoundError.log`: `directoryPath` is interpolated
unconditionally. -/
def LogDirectoryNotFoundError.logMsg (o : LogDirectoryNotFoundError) : String :=
  "Log Directory Not Found Error: " ++ jsStrOfStr o.message ++
    " (Directory: " ++ jsStrOfStr o.directoryPath ++ ")"

/-- `new LogDirectoryNotFoundError(message, directoryPath)`. -/
def LogDirectoryNotFoundError.construct (message directoryPath : String) :
    LogDirectoryNotFoundError × List String :=
  let o : LogDirectoryNotFoundError :=
    { name := some "LogDirectoryNotFoundError", message := some message,
      directoryPath := none }
  let e := LogDirectoryNotFoundError.logMsg o
  ({ o with directoryPath := some directoryPath }, [e])

/-- A later call of `LogDirectoryNotFoundError.log`. -/
def LogDirectoryNotFoundError.log (o : LogDirectoryNotFoundError) :
    LogDirectoryNotFoundError × List String :=
  (o, [LogDirectoryNotFoundError.logMsg o])

/-- Specification template
`Log Directory Not Found Error: {message} (Directory: {directoryPath})`. -/
def LogDirectoryNotFoundError.specRender (message directoryPath : String) :
    String :=
  "Log Directory Not Found Error: " ++ message ++
    " (Directory: " ++ directoryPath ++ ")"

/-- The `LogFileOperationError` object: `filePath` is required. -/
structure LogFileOperationError where
  name : Option String
  message : Option String
  filePath : Option String
  operation : Option String
deriving Repr, DecidableEq

/-- Body of `LogFileOperationError.log`: the optional operation clause sits
inside the `(File: ...)` parentheses. -/
def LogFileOperationError.logMsg (o : LogFileOperationError) : String :=
  "Log File Operation Error: " ++ jsStrOfStr o.message ++
    " (File: " ++ jsStrOfStr o.filePath ++
    (if jsTruthyStr o.operation then
      ", Operation: " ++ jsStrOfStr o.operation else "") ++ ")"

/-- `new LogFileOperationError(message, filePath, operation?)`. -/
def LogFileOperationError.construct (message filePath : String)
    (operation : Option String) : LogFileOperationError × List String :=
  let o : LogFileOperationError :=
    { name := some "LogFileOperationError", message := some message,
      filePath := none, operation := none }
  let e := LogFileOperationError.logMsg o
  ({ o with filePath := some filePath, operation := operation }, [e])

/-- A later call of `LogFileOperationError.log`. -/
def LogFileOperationError.log (o : LogFileOperationError) :
    LogFileOperationError × List String :=
  (o, [LogFileOperationError.logMsg o])

/-- Specification template
`Log File Operation Error: {message} (File: {filePath}[, Operation: {operation}])`. -/
def LogFileOperationError.specRender (message filePath : String)
    (operation : Option String) : String :=
  "Log File Operation Error: " ++ message ++
    " (File: " ++ filePath ++
    (match operation with
     | none => ""
     | some op => ", Operation: " ++ op) ++ ")"

/-- The `LoggerInitializationError` object. -/
structure LoggerInitializationError where
  name : Option String
  message : Option String
  component : Option String
deriving Repr, DecidableEq

/-- Body of `LoggerInitializationError.log`. -/
def LoggerInitializationError.logMsg (o : LoggerInitializationError) : String :=
  "Logger Initialization Error: " ++ jsStrOfStr o.message ++
    (if jsTruthyStr o.component then
      " (Component: " ++ jsStrOfStr o.component ++ ")" else "")

/-- `new LoggerInitializationError(message, component?)`. -/
def LoggerInitializationError.construct (message : String)
    (component : Option String) : LoggerInitializationError × List String :=
  let o : LoggerInitializationError :=
    { name := some "LoggerInitializationError", message := some message,
      component := none }
  let e := LoggerInitializationError.logMsg o
  ({ o with component := component }, [e])

/-- A later call of `LoggerInitializationError.log`. -/
def LoggerInitializationError.log (o : LoggerInitializationError) :
    LoggerInitializationError × List String :=
  (o, [LoggerInitializationError.logMsg o])

/-- Specification template
`Logger Initialization Error: {message}[ (Component: {component})]`. -/
def LoggerInitializationError.specRender (message : String)
    (component : Option String) : String :=
  "Logger Initialization Error: " ++ message ++
    (match component with
     | none => ""
     | some c => " (Component: " ++ c ++ ")")

/-!
Default-logger fallback (claim about `BaseError.constructor` together with
`Logger.constructor` in src/logger.ts).

When a concrete error is constructed without a logger, `BaseError` runs
`new Logger(name)`.  The `Logger` constructor calls `setLogFilePath`, which,
if the log directory does not exist (and no `recursive` option is given),
evaluates `new LogDirectoryNotFoundError(...)` and throws it; the `Logger`
constructor catches any failure and throws
`new LoggerInitializationError(...)`.  Both of those error classes extend
`BaseError`, so constructing either one again runs `new Logger(...)`.

The embedding makes the call stack explicit with a fuel parameter: every
constructor call consumes one unit of fuel, and a call at fuel `0` is a
stack overflow.  A stack-overflow exception is catchable in JavaScript
(it is a `RangeError`), so the catch clause of the `Logger` constructor
handles the `overflow` outcome exactly like a `thrown` outcome.
`dirOk` states whether the configured log directory exists.
-/

/-- An exception value thrown during logger or error construction. -/
inductive Thrown where
  | logDirNotFound (message dir : String)
  | loggerInit (message component : String)
deriving Repr, DecidableEq

/-- Outcome of running a JavaScript constructor with bounded stack. -/
inductive JsOutcome (α : Type) where
  | ok (a : α)
  | thrown (e : Thrown)
  | overflow
deriving Repr, DecidableEq

/-- A successfully constructed `Logger`, reduced to its context label. -/
structure LoggerM where
  context : String
deriving Repr, DecidableEq

/-- `new Logger(context)` with the default file path, under `fuel` remaining
stack frames.  The directory-missing branch of `setLogFilePath` constructs and
throws a `LogDirectoryNotFoundError`, whose own base constructor builds a
default `Logger` first; the catch clause of the `Logger` constructor
constructs and throws a `LoggerInitializationError`, whose base constructor
likewise builds a default `Logger` first. -/
def mkLoggerF : Nat → Bool → String → JsOutcome LoggerM
  | 0, _, _ => .overflow
  | fuel + 1, dirOk, context =>
    if dirOk then
      .ok { context := context }
    else
      let tryBody : JsOutcome Unit :=
        match mkLoggerF fuel dirOk "LogDirectoryNotFoundError" with
        | .ok _ => .thrown (.logDirNotFound "Log directory does not exist" "logs")
        | .thrown e => .thrown e
        | .overflow => .overflow
      match tryBody with
      | .ok _ => .ok { context := context }
      | .thrown _ | .overflow =>
        match mkLoggerF fuel dirOk "LoggerInitializationError" with
        | .ok _ =>
          .thrown (.loggerInit "Failed to initialize logger:"
            "Log directory does not exist")
        | .thrown e => .thrown e
        | .overflow => .overflow

/-- Construction of any `BaseError` subclass named `name` with the logger
argument omitted: the base constructor runs `new Logger(name)` and then the
rest of construction (logging and field assignment) cannot fail. -/
def mkBaseErrorNoLogger (fuel : Nat) (dirOk : Bool) (name : String) :
    JsOutcome Unit :=
  match fuel with
  | 0 => .overflow
  | fuel + 1 =>
    match mkLoggerF fuel dirOk name with
    | .ok _ => .ok ()
    | .thrown e => .thrown e
    | .overflow => .overflow

/-!
Helper lemmas: on a fully constructed instance, `log()` emits exactly the
§4.2 specification template, provided every supplied optional scalar is
truthy (non-empty string, non-zero number).  Kinds whose extra fields are
required, or array-valued, need no side condition.
-/

theorem apiError_log_spec (s : Int) (m : String) (r : Option String)
    (h : r ≠ some "") :
    (ApiError.log (ApiError.construct s m r).1).2 = [ApiError.specRender s m r] := by
  cases r with
  | none =>
    simp [ApiError.log, ApiError.construct, ApiError.logMsg, ApiError.specRender,
      jsStrOfNum, jsStrOfStr, jsTruthyStr]
  | some v =>
    have hv : v ≠ "" := fun hv => h (by rw [hv])
    simp [ApiError.log, ApiError.construct, ApiError.logMsg, ApiError.specRender,
      jsStrOfNum, jsStrOfStr, jsTruthyStr, hv]

theorem networkError_log_spec (m : String) (c : Option String)
    (h : c ≠ some "") :
    (NetworkError.log (NetworkError.construct m c).1).2 =
      [NetworkError.specRender m c] := by
  cases c with
  | none =>
    simp [NetworkError.log, NetworkError.construct, NetworkError.logMsg,
      NetworkError.specRender, jsStrOfStr, jsTruthyStr]
  | some v =>
    have hv : v ≠ "" := fun hv => h (by rw [hv])
    simp [NetworkError.log, NetworkError.construct, NetworkError.logMsg,
      NetworkError.specRender, jsStrOfStr, jsTruthyStr, hv]

theorem parseError_log_spec (m : String) (s : Option String)
    (h : s ≠ some "") :
    (ParseError.log (ParseError.construct m s).1).2 =
      [ParseError.specRender m s] := by
  cases s with
  | none =>
    simp [ParseError.log, ParseError.construct, ParseError.logMsg,
      ParseError.specRender, jsStrOfStr, jsTruthyStr]
  | some v =>
    have hv : v ≠ "" := fun hv => h (by rw [hv])
    simp [ParseError.log, ParseError.construct, ParseError.logMsg,
      ParseError.specRender, jsStrOfStr, jsTruthyStr, hv]

theorem validationError_log_spec (m : String) (f : Option (List String)) :
    (ValidationError.log (ValidationError.construct m f).1).2 =
      [ValidationError.specRender m f] := by
  cases f with
  | none =>
    simp [ValidationError.log, ValidationError.construct, ValidationError.logMsg,
      ValidationError.specRender, jsStrOfStr, jsTruthyArr, jsJoinArr]
  | some xs =>
    simp [ValidationError.log, ValidationError.construct, ValidationError.logMsg,
      ValidationError.specRender, jsStrOfStr, jsTruthyArr, jsJoinArr]

theorem authenticationError_log_spec (m : String) (u : Option String)
    (h : u ≠ some "") :
    (AuthenticationError.log (AuthenticationError.construct m u).1).2 =
      [AuthenticationError.specRender m u] := by
  cases u with
  | none =>
    simp [AuthenticationError.log, AuthenticationError.construct,
      AuthenticationError.logMsg, AuthenticationError.specRender,
      jsStrOfStr, jsTruthyStr]
  | some v =>
    have hv : v ≠ "" := fun hv => h (by rw [hv])
    simp [AuthenticationError.log, AuthenticationError.construct,
      AuthenticationError.logMsg, AuthenticationError.specRender,
      jsStrOfStr, jsTruthyStr, hv]

theorem authorizationError_log_spec (m : String) (r a : Option String)
    (hr : r ≠ some "") (ha : a ≠ some "") :
    (AuthorizationError.log (AuthorizationError.construct m r a).1).2 =
      [AuthorizationError.specRender m r a] := by
  cases r with
  | none =>
    cases a with
    | none =>
      simp [AuthorizationError.log, AuthorizationError.construct,
        AuthorizationError.logMsg, AuthorizationError.specRender,
        jsStrOfStr, jsTruthyStr]
    | some w =>
      have hw : w ≠ "" := fun hw => ha (by rw [hw])
      simp [AuthorizationError.log, AuthorizationError.construct,
        AuthorizationError.logMsg, AuthorizationError.specRender,
        jsStrOfStr, jsTruthyStr, hw]
  | some v =>
    have hv : v ≠ "" := fun hv => hr (by rw [hv])
    cases a with
    | none =>
      simp [AuthorizationError.log, AuthorizationError.construct,
        AuthorizationError.logMsg, AuthorizationError.specRender,
        jsStrOfStr, jsTruthyStr, hv]
    | some w =>
      have hw : w ≠ "" := fun hw => ha (by rw [hw])
      simp [AuthorizationError.log, AuthorizationError.construct,
        AuthorizationError.logMsg, AuthorizationError.specRender,
        jsStrOfStr, jsTruthyStr, hv, hw]

theorem rateLimitError_log_spec (m : String) (t : Option Int)
    (h : t ≠ some 0) :
    (RateLimitError.log (RateLimitError.construct m t).1).2 =
      [RateLimitError.specRender m t] := by
  cases t with
  | none =>
    simp [RateLimitError.log, RateLimitError.construct, RateLimitError.logMsg,
      RateLimitError.specRender, jsStrOfStr, jsStrOfNum, jsTruthyNum]
  | some v =>
    have hv : v ≠ 0 := fun hv => h (by rw [hv])
    simp [RateLimitError.log, RateLimitError.construct, RateLimitError.logMsg,
      RateLimitError.specRender, jsStrOfStr, jsStrOfNum, jsTruthyNum, hv]

theorem databaseError_log_spec (m : String) (op : Option String)
    (h : op ≠ some "") :
    (DatabaseError.log (DatabaseError.construct m op).1).2 =
      [DatabaseError.specRender m op] := by
  cases op with
  | none =>
    simp [DatabaseError.log, DatabaseError.construct, DatabaseError.logMsg,
      DatabaseError.specRender, jsStrOfStr, jsTruthyStr]
  | some v =>
    have hv : v ≠ "" := fun hv => h (by rw [hv])
    simp [DatabaseError.log, DatabaseError.construct, DatabaseError.logMsg,
      DatabaseError.specRender, jsStrOfStr, jsTruthyStr, hv]

theorem configurationError_log_spec (m : String) (k : Option String)
    (h : k ≠ some "") :
    (ConfigurationError.log (ConfigurationError.construct m k).1).2 =
      [ConfigurationError.specRender m k] := by
  cases k with
  | none =>
    simp [ConfigurationError.log, ConfigurationError.construct,
      ConfigurationError.logMsg, ConfigurationError.specRender,
      jsStrOfStr, jsTruthyStr]
  | some v =>
    have hv : v ≠ "" := fun hv => h (by rw [hv])
    simp [ConfigurationError.log, ConfigurationError.construct,
      ConfigurationError.logMsg, ConfigurationError.specRender,
      jsStrOfStr, jsTruthyStr, hv]

theorem externalServiceError_log_spec (m svc : String) :
    (ExternalServiceError.log (ExternalServiceError.construct m svc).1).2 =
      [ExternalServiceError.specRender m svc] := by
  simp [ExternalServiceError.log, ExternalServiceError.construct,
    ExternalServiceError.logMsg, ExternalServiceError.specRender, jsStrOfStr]

theorem fileNotFoundError_log_spec (m : String) (p : Option String)
    (h : p ≠ some "") :
    (FileNotFoundError.log (FileNotFoundError.construct m p).1).2 =
      [FileNotFoundError.specRender m p] := by
  cases p with
  | none =>
    simp [FileNotFoundError.log, FileNotFoundError.construct,
      FileNotFoundError.logMsg, FileNotFoundError.specRender,
      jsStrOfStr, jsTruthyStr]
  | some v =>
    have hv : v ≠ "" := fun hv => h (by rw [hv])
    simp [FileNotFoundError.log, FileNotFoundError.construct,
      FileNotFoundError.logMsg, FileNotFoundError.specRender,
      jsStrOfStr, jsTruthyStr, hv]

theorem logDirectoryNotFoundError_log_spec (m d : String) :
    (LogDirectoryNotFoundError.log (LogDirectoryNotFoundError.construct m d).1).2 =
      [LogDirectoryNotFoundError.specRender m d] := by
  simp [LogDirectoryNotFoundError.log, LogDirectoryNotFoundError.construct,
    LogDirectoryNotFoundError.logMsg, LogDirectoryNotFoundError.specRender,
    jsStrOfStr]

theorem logFileOperationError_log_spec (m f : String) (op : Option String)
    (h : op ≠ some "") :
    (LogFileOperationError.log (LogFileOperationError.construct m f op).1).2 =
      [LogFileOperationError.specRender m f op] := by
  cases op with
  | none =>
    simp [LogFileOperationError.log, LogFileOperationError.construct,
      LogFileOperationError.logMsg, LogFileOperationError.specRender,
      jsStrOfStr, jsTruthyStr]
  | some v =>
    have hv : v ≠ "" := fun hv => h (by rw [hv])
    simp [LogFileOperationError.log, LogFileOperationError.construct,
      LogFileOperationError.logMsg, LogFileOperationError.specRender,
      jsStrOfStr, jsTruthyStr, hv]

theorem loggerInitializationError_log_spec (m : String) (c : Option String)
    (h : c ≠ some "") :
    (LoggerInitializationError.log (LoggerInitializationError.construct m c).1).2 =
      [LoggerInitializationError.specRender m c] := by
  cases c with
  | none =>
    simp [LoggerInitializationError.log, LoggerInitializationError.construct,
      LoggerInitializationError.logMsg, LoggerInitializationError.specRender,
      jsStrOfStr, jsTruthyStr]
  | some v =>
    have hv : v ≠ "" := fun hv => h (by rw [hv])
    simp [LoggerInitializationError.log, LoggerInitializationError.construct,
      LoggerInitializationError.logMsg, LoggerInitializationError.specRender,
      jsStrOfStr, jsTruthyStr, hv]

/-- When the log directory is missing, the `Logger` constructor can never
return and can never throw: every execution, at every stack budget, ends in
stack overflow, because each attempt to build the error to throw constructs
another default `Logger` first. -/
theorem mkLoggerF_dirMissing :
    ∀ (fuel : Nat) (context : String), mkLoggerF fuel false context = .overflow := by
  intro fuel
  induction fuel with
  | zero => intro context; rfl
  | succ n ih => intro context; simp [mkLoggerF, ih]

/-- Consequently a `BaseError` subclass constructed without a logger, with the
log directory missing, also always ends in stack overflow. -/
theorem mkBaseErrorNoLogger_dirMissing (fuel : Nat) (name : String) :
    mkBaseErrorNoLogger fuel false name = .overflow := by
  cases fuel with
  | zero => rfl
  | succ n => simp [mkBaseErrorNoLogger, mkLoggerF_dirMissing]

/-!
## Claims
-/

/-- C1: the claim states that when the caller omits a logger the base error
constructor falls back to a default logger scoped to the kind, and that when
even the default logger cannot be built (log directory unusable) a distinct
`LoggerInitializationError` is raised to the caller.  The fallback part holds
(first two conjuncts).  The surfacing part is a code bug: with the directory
missing, the default-logger construction never completes and never throws any
error value at all — in particular never a `LoggerInitializationError` —
because every attempt to build the error to throw first builds another
default logger; at every stack budget the outcome is stack overflow. -/
theorem c1_default_logger_failure_never_surfaced :
    (∀ (fuel : Nat) (context : String),
        mkLoggerF (fuel + 1) true context = .ok { context := context }) ∧
    (∀ (fuel : Nat) (name : String),
        mkBaseErrorNoLogger (fuel + 2) true name = .ok ()) ∧
    (∀ (fuel : Nat) (context : String),
        mkLoggerF fuel false context = .overflow) ∧
    (∀ (fuel : Nat) (name : String),
        mkBaseErrorNoLogger fuel false name = .overflow) ∧
    (∀ (fuel : Nat) (name : String) (e : Thrown),
        mkBaseErrorNoLogger fuel false name ≠ .thrown e) := by
  refine ⟨?_, ?_, mkLoggerF_dirMissing, mkBaseErrorNoLogger_dirMissing, ?_⟩
  · intro fuel context; rfl
  · intro fuel name; rfl
  · intro fuel name e h
    rw [mkBaseErrorNoLogger_dirMissing] at h
    exact JsOutcome.noConfusion h

/-- C2: for every concrete error kind, constructing an instance invokes
`log()` exactly once as part of construction, producing exactly one
error-level emission on the bound logger per construction, no more, no less
(the model presupposes that the logger binding succeeded); a later explicit
`log()` call produces exactly one additional emission. -/
theorem c2_construction_logs_exactly_once :
    (∀ (s : Int) (m : String) (r : Option String),
        (ApiError.construct s m r).2.length = 1) ∧
    (∀ (m : String) (c : Option String),
        (NetworkError.construct m c).2.length = 1) ∧
    (∀ (m : String) (s : Option String),
        (ParseError.construct m s).2.length = 1) ∧
    (∀ (m : String) (f : Option (List String)),
        (ValidationError.construct m f).2.length = 1) ∧
    (∀ (m : String) (u : Option String),
        (AuthenticationError.construct m u).2.length = 1) ∧
    (∀ (m : String) (r a : Option String),
        (AuthorizationError.construct m r a).2.length = 1) ∧
    (∀ (m : String) (t : Option Int),
        (RateLimitError.construct m t).2.length = 1) ∧
    (∀ (m : String) (op : Option String),
        (DatabaseError.construct m op).2.length = 1) ∧
    (∀ (m : String) (k : Option String),
        (ConfigurationError.construct m k).2.length = 1) ∧
    (∀ (m svc : String),
        (ExternalServiceError.construct m svc).2.length = 1) ∧
    (∀ (m : String) (p : Option String),
        (FileNotFoundError.construct m p).2.length = 1) ∧
    (∀ (m d : String),
        (LogDirectoryNotFoundError.construct m d).2.length = 1) ∧
    (∀ (m f : String) (op : Option String),
        (LogFileOperationError.construct m f op).2.length = 1) ∧
    (∀ (m : String) (c : Option String),
        (LoggerInitializationError.construct m c).2.length = 1) ∧
    (∀ (s : Int) (m : String) (r : Option String),
        ((ApiError.construct s m r).2 ++
          (ApiError.log (ApiError.construct s m r).1).2).length = 2) := by
  refine ⟨?_, ?_, ?_, ?_, ?_, ?_, ?_, ?_, ?_, ?_, ?_, ?_, ?_, ?_, ?_⟩ <;>
    intros <;> rfl

/-- C3: for every concrete kind, the base constructor invokes the virtual
`log()` before the subclass parameter properties are assigned, so the single
construction-time emission does not depend on any kind-specific argument:
optional-field clauses are omitted and required fields interpolate as the
text `undefined`.  In particular `new ApiError(404, "Not Found", "REQ123")`
emits `API Error undefined: Not Found` at construction — not the
template-correct line. -/
theorem c3_construction_emission_ignores_fields :
    (∀ (s s' : Int) (m : String) (r r' : Option String),
        (ApiError.construct s m r).2 = (ApiError.construct s' m r').2) ∧
    (∀ (m : String) (c c' : Option String),
        (NetworkError.construct m c).2 = (NetworkError.construct m c').2) ∧
    (∀ (m : String) (s s' : Option String),
        (ParseError.construct m s).2 = (ParseError.construct m s').2) ∧
    (∀ (m : String) (f f' : Option (List String)),
        (ValidationError.construct m f).2 = (ValidationError.construct m f').2) ∧
    (∀ (m : String) (u u' : Option String),
        (AuthenticationError.construct m u).2 =
          (AuthenticationError.construct m u').2) ∧
    (∀ (m : String) (r r' a a' : Option String),
        (AuthorizationError.construct m r a).2 =
          (AuthorizationError.construct m r' a').2) ∧
    (∀ (m : String) (t t' : Option Int),
        (RateLimitError.construct m t).2 = (RateLimitError.construct m t').2) ∧
    (∀ (m : String) (op op' : Option String),
        (DatabaseError.construct m op).2 = (DatabaseError.construct m op').2) ∧
    (∀ (m : String) (k k' : Option String),
        (ConfigurationError.construct m k).2 =
          (ConfigurationError.construct m k').2) ∧
    (∀ (m svc svc' : String),
        (ExternalServiceError.construct m svc).2 =
          (ExternalServiceError.construct m svc').2) ∧
    (∀ (m : String) (p p' : Option String),
        (FileNotFoundError.construct m p).2 =
          (FileNotFoundError.construct m p').2) ∧
    (∀ (m d d' : String),
        (LogDirectoryNotFoundError.construct m d).2 =
          (LogDirectoryNotFoundError.construct m d').2) ∧
    (∀ (m f f' : String) (op op' : Option String),
        (LogFileOperationError.construct m f op).2 =
          (LogFileOperationError.construct m f' op').2) ∧
    (∀ (m : String) (c c' : Option String),
        (LoggerInitializationError.construct m c).2 =
          (LoggerInitializationError.construct m c').2) ∧
    (ApiError.construct 404 "Not Found" (some "REQ123")).2 =
      ["API Error undefined: Not Found"] ∧
    (ApiError.construct 404 "Not Found" (some "REQ123")).2 ≠
      [ApiError.specRender 404 "Not Found" (some "REQ123")] ∧
    (ExternalServiceError.construct "Service unavailable" "ExternalAPI").2 =
      ["External Service Error (undefined): Service unavailable"] := by
  refine ⟨?_, ?_, ?_, ?_, ?_, ?_, ?_, ?_, ?_, ?_, ?_, ?_, ?_, ?_, ?_, ?_, ?_⟩ <;>
    first
      | (intros; rfl)
      | decide

/-- C4, counterexample to the claim as stated: `ApiError` constructed with a
present but empty `requestId` renders without the Request ID clause, while
the literal §4.2 template with the present field interpolated keeps the
clause; so a `log()` emission does not always equal the template
field-for-field. -/
theorem c4_counterexample_empty_requestId :
    (ApiError.log (ApiError.construct 404 "Not Found" (some "")).1).2 =
      ["API Error 404: Not Found"] ∧
    ApiError.specRender 404 "Not Found" (some "") =
      "API Error 404: Not Found (Request ID: )" ∧
    (ApiError.log (ApiError.construct 404 "Not Found" (some "")).1).2 ≠
      [ApiError.specRender 404 "Not Found" (some "")] := by
  refine ⟨?_, ?_, ?_⟩ <;> decide

/-- C4 (amended): for every concrete kind, every invocation of `log()` on a
fully constructed instance routes to the bound logger's error operation
exactly once; and whenever every supplied optional scalar field is truthy
(non-empty string, non-zero number) the emitted message equals the literal
§4.2 template for that kind with present fields interpolated — a present but
falsy optional scalar is instead rendered as if absent.  In particular
`ApiError(404, "Not Found", "REQ123")` yields exactly
`API Error 404: Not Found (Request ID: REQ123)`. -/
theorem c4_log_routes_once_and_matches_template :
    (∀ (s : Int) (m : String) (r : Option String), r ≠ some "" →
        (ApiError.log (ApiError.construct s m r).1).2 =
          [ApiError.specRender s m r]) ∧
    (∀ (m : String) (c : Option String), c ≠ some "" →
        (NetworkError.log (NetworkError.construct m c).1).2 =
          [NetworkError.specRender m c]) ∧
    (∀ (m : String) (s : Option String), s ≠ some "" →
        (ParseError.log (ParseError.construct m s).1).2 =
          [ParseError.specRender m s]) ∧
    (∀ (m : String) (f : Option (List String)),
        (ValidationError.log (ValidationError.construct m f).1).2 =
          [ValidationError.specRender m f]) ∧
    (∀ (m : String) (u : Option String), u ≠ some "" →
        (AuthenticationError.log (AuthenticationError.construct m u).1).2 =
          [AuthenticationError.specRender m u]) ∧
    (∀ (m : String) (r a : Option String), r ≠ some "" → a ≠ some "" →
        (AuthorizationError.log (AuthorizationError.construct m r a).1).2 =
          [AuthorizationError.specRender m r a]) ∧
    (∀ (m : String) (t : Option Int), t ≠ some 0 →
        (RateLimitError.log (RateLimitError.construct m t).1).2 =
          [RateLimitError.specRender m t]) ∧
    (∀ (m : String) (op : Option String), op ≠ some "" →
        (DatabaseError.log (DatabaseError.construct m op).1).2 =
          [DatabaseError.specRender m op]) ∧
    (∀ (m : String) (k : Option String), k ≠ some "" →
        (ConfigurationError.log (ConfigurationError.construct m k).1).2 =
          [ConfigurationError.specRender m k]) ∧
    (∀ (m svc : String),
        (ExternalServiceError.log (ExternalServiceError.construct m svc).1).2 =
          [ExternalServiceError.specRender m svc]) ∧
    (∀ (m : String) (p : Option String), p ≠ some "" →
        (FileNotFoundError.log (FileNotFoundError.construct m p).1).2 =
          [FileNotFoundError.specRender m p]) ∧
    (∀ (m d : String),
        (LogDirectoryNotFoundError.log
            (LogDirectoryNotFoundError.construct m d).1).2 =
          [LogDirectoryNotFoundError.specRender m d]) ∧
    (∀ (m f : String) (op : Option String), op ≠ some "" →
        (LogFileOperationError.log
            (LogFileOperationError.construct m f op).1).2 =
          [LogFileOperationError.specRender m f op]) ∧
    (∀ (m : String) (c : Option String), c ≠ some "" →
        (LoggerInitializationError.log
            (LoggerInitializationError.construct m c).1).2 =
          [LoggerInitializationError.specRender m c]) ∧
    (∀ o : ApiError, (ApiError.log o).2.length = 1) ∧
    (∀ o : NetworkError, (NetworkError.log o).2.length = 1) ∧
    (∀ o : ParseError, (ParseError.log o).2.length = 1) ∧
    (∀ o : ValidationError, (ValidationError.log o).2.length = 1) ∧
    (∀ o : AuthenticationError, (AuthenticationError.log o).2.length = 1) ∧
    (∀ o : AuthorizationError, (AuthorizationError.log o).2.length = 1) ∧
    (∀ o : RateLimitError, (RateLimitError.log o).2.length = 1) ∧
    (∀ o : DatabaseError, (DatabaseError.log o).2.length = 1) ∧
    (∀ o : ConfigurationError, (ConfigurationError.log o).2.length = 1) ∧
    (∀ o : ExternalServiceError, (ExternalServiceError.log o).2.length = 1) ∧
    (∀ o : FileNotFoundError, (FileNotFoundError.log o).2.length = 1) ∧
    (∀ o : LogDirectoryNotFoundError,
        (LogDirectoryNotFoundError.log o).2.length = 1) ∧
    (∀ o : LogFileOperationError, (LogFileOperationError.log o).2.length = 1) ∧
    (∀ o : LoggerInitializationError,
        (LoggerInitializationError.log o).2.length = 1) ∧
    (ApiError.log (ApiError.construct 404 "Not Found" (some "REQ123")).1).2 =
      ["API Error 404: Not Found (Request ID: REQ123)"] := by
  refine ⟨apiError_log_spec, networkError_log_spec, parseError_log_spec,
    validationError_log_spec, authenticationError_log_spec,
    authorizationError_log_spec, rateLimitError_log_spec,
    databaseError_log_spec, configurationError_log_spec,
    externalServiceError_log_spec, fileNotFoundError_log_spec,
    logDirectoryNotFoundError_log_spec, logFileOperationError_log_spec,
    loggerInitializationError_log_spec,
    fun _ => rfl, fun _ => rfl, fun _ => rfl, fun _ => rfl, fun _ => rfl,
    fun _ => rfl, fun _ => rfl, fun _ => rfl, fun _ => rfl, fun _ => rfl,
    fun _ => rfl, fun _ => rfl, fun _ => rfl, fun _ => rfl, by decide⟩

/-- Witness for C4 (amended): the concrete scenario from the specification,
with the truthiness hypothesis discharged at `requestId = "REQ123"`. -/
theorem c4_log_routes_once_and_matches_template_witness :
    (ApiError.log (ApiError.construct 404 "Not Found" (some "REQ123")).1).2 =
      [ApiError.specRender 404 "Not Found" (some "REQ123")] :=
  c4_log_routes_once_and_matches_template.1 404 "Not Found" (some "REQ123")
    (by decide)

/-- C5, counterexample to the claim as stated: a supplied `retryAfter` of `0`
and a supplied empty-string `code` are present optional fields, yet their
clauses are omitted from the rendered message, because presence is tested by
JavaScript truthiness. -/
theorem c5_counterexample_falsy_present_fields :
    (RateLimitError.log
        (RateLimitError.construct "Too many requests" (some 0)).1).2 =
      ["Rate Limit Error: Too many requests"] ∧
    (RateLimitError.log
        (RateLimitError.construct "Too many requests" (some 0)).1).2 ≠
      [RateLimitError.specRender "Too many requests" (some 0)] ∧
    (NetworkError.log
        (NetworkError.construct "Connection reset" (some "")).1).2 =
      ["Network Error: Connection reset"] ∧
    (NetworkError.log
        (NetworkError.construct "Connection reset" (some "")).1).2 ≠
      [NetworkError.specRender "Connection reset" (some "")] := by
  refine ⟨?_, ?_, ?_, ?_⟩ <;> decide

/-- C5 (amended): for every kind with at least one optional field, an absent
optional field's bracketed clause is omitted byte-exactly from the rendered
message, and a present optional field's clause is appended in the fixed
documented order with the fixed separator whenever its value is truthy —
non-empty string, non-zero number, or any array (including the empty array);
a present but falsy scalar value (`0` or the empty string) is rendered as if
the field were absent. -/
theorem c5_optional_clause_presence :
    (∀ (s : Int) (m : String) (v : String), v ≠ "" →
        (ApiError.log (ApiError.construct s m (some v)).1).2 =
          [ApiError.specRender s m (some v)]) ∧
    (∀ (s : Int) (m : String),
        (ApiError.log (ApiError.construct s m none).1).2 =
          [ApiError.specRender s m none]) ∧
    (∀ (m v : String), v ≠ "" →
        (NetworkError.log (NetworkError.construct m (some v)).1).2 =
          [NetworkError.specRender m (some v)]) ∧
    (∀ m : String,
        (NetworkError.log (NetworkError.construct m none).1).2 =
          [NetworkError.specRender m none]) ∧
    (∀ (m v : String), v ≠ "" →
        (ParseError.log (ParseError.construct m (some v)).1).2 =
          [ParseError.specRender m (some v)]) ∧
    (∀ m : String,
        (ParseError.log (ParseError.construct m none).1).2 =
          [ParseError.specRender m none]) ∧
    (∀ (m : String) (xs : List String),
        (ValidationError.log (ValidationError.construct m (some xs)).1).2 =
          [ValidationError.specRender m (some xs)]) ∧
    (∀ m : String,
        (ValidationError.log (ValidationError.construct m none).1).2 =
          [ValidationError.specRender m none]) ∧
    (∀ (m v : String), v ≠ "" →
        (AuthenticationError.log
            (AuthenticationError.construct m (some v)).1).2 =
          [AuthenticationError.specRender m (some v)]) ∧
    (∀ m : String,
        (AuthenticationError.log (AuthenticationError.construct m none).1).2 =
          [AuthenticationError.specRender m none]) ∧
    (∀ (m v w : String), v ≠ "" → w ≠ "" →
        (AuthorizationError.log
            (AuthorizationError.construct m (some v) (some w)).1).2 =
          [AuthorizationError.specRender m (some v) (some w)]) ∧
    (∀ (m v : String), v ≠ "" →
        (AuthorizationError.log
            (AuthorizationError.construct m (some v) none).1).2 =
          [AuthorizationError.specRender m (some v) none]) ∧
    (∀ (m w : String), w ≠ "" →
        (AuthorizationError.log
            (AuthorizationError.construct m none (some w)).1).2 =
          [AuthorizationError.specRender m none (some w)]) ∧
    (∀ m : String,
        (AuthorizationError.log
            (AuthorizationError.construct m none none).1).2 =
          [AuthorizationError.specRender m none none]) ∧
    (∀ (m : String) (t : Int), t ≠ 0 →
        (RateLimitError.log (RateLimitError.construct m (some t)).1).2 =
          [RateLimitError.specRender m (some t)]) ∧
    (∀ m : String,
        (RateLimitError.log (RateLimitError.construct m none).1).2 =
          [RateLimitError.specRender m none]) ∧
    (∀ (m v : String), v ≠ "" →
        (DatabaseError.log (DatabaseError.construct m (some v)).1).2 =
          [DatabaseError.specRender m (some v)]) ∧
    (∀ m : String,
        (DatabaseError.log (DatabaseError.construct m none).1).2 =
          [DatabaseError.specRender m none]) ∧
    (∀ (m v : String), v ≠ "" →
        (ConfigurationError.log (ConfigurationError.construct m (some v)).1).2 =
          [ConfigurationError.specRender m (some v)]) ∧
    (∀ m : String,
        (ConfigurationError.log (ConfigurationError.construct m none).1).2 =
          [ConfigurationError.specRender m none]) ∧
    (∀ (m v : String), v ≠ "" →
        (FileNotFoundError.log (FileNotFoundError.construct m (some v)).1).2 =
          [FileNotFoundError.specRender m (some v)]) ∧
    (∀ m : String,
        (FileNotFoundError.log (FileNotFoundError.construct m none).1).2 =
          [FileNotFoundError.specRender m none]) ∧
    (∀ (m f v : String), v ≠ "" →
        (LogFileOperationError.log
            (LogFileOperationError.construct m f (some v)).1).2 =
          [LogFileOperationError.specRender m f (some v)]) ∧
    (∀ m f : String,
        (LogFileOperationError.log
            (LogFileOperationError.construct m f none).1).2 =
          [LogFileOperationError.specRender m f none]) ∧
    (∀ (m v : String), v ≠ "" →
        (LoggerInitializationError.log
            (LoggerInitializationError.construct m (some v)).1).2 =
          [LoggerInitializationError.specRender m (some v)]) ∧
    (∀ m : String,
        (LoggerInitializationError.log
            (LoggerInitializationError.construct m none).1).2 =
          [LoggerInitializationError.specRender m none]) := by
  refine ⟨fun s m v hv => apiError_log_spec s m (some v) (by simp [hv]),
    fun s m => apiError_log_spec s m none (by simp),
    fun m v hv => networkError_log_spec m (some v) (by simp [hv]),
    fun m => networkError_log_spec m none (by simp),
    fun m v hv => parseError_log_spec m (some v) (by simp [hv]),
    fun m => parseError_log_spec m none (by simp),
    fun m xs => validationError_log_spec m (some xs),
    fun m => validationError_log_spec m none,
    fun m v hv => authenticationError_log_spec m (some v) (by simp [hv]),
    fun m => authenticationError_log_spec m none (by simp),
    fun m v w hv hw =>
      authorizationError_log_spec m (some v) (some w) (by simp [hv]) (by simp [hw]),
    fun m v hv =>
      authorizationError_log_spec m (some v) none (by simp [hv]) (by simp),
    fun m w hw =>
      authorizationError_log_spec m none (some w) (by simp) (by simp [hw]),
    fun m => authorizationError_log_spec m none none (by simp) (by simp),
    fun m t ht => rateLimitError_log_spec m (some t) (by simp [ht]),
    fun m => rateLimitError_log_spec m none (by simp),
    fun m v hv => databaseError_log_spec m (some v) (by simp [hv]),
    fun m => databaseError_log_spec m none (by simp),
    fun m v hv => configurationError_log_spec m (some v) (by simp [hv]),
    fun m => configurationError_log_spec m none (by simp),
    fun m v hv => fileNotFoundError_log_spec m (some v) (by simp [hv]),
    fun m => fileNotFoundError_log_spec m none (by simp),
    fun m f v hv => logFileOperationError_log_spec m f (some v) (by simp [hv]),
    fun m f => logFileOperationError_log_spec m f none (by simp),
    fun m v hv => loggerInitializationError_log_spec m (some v) (by simp [hv]),
    fun m => loggerInitializationError_log_spec m none (by simp)⟩

/-- Witness for C5 (amended): a truthy `retryAfter` of `30` seconds gets its
clause appended, with the truthiness hypothesis discharged concretely. -/
theorem c5_optional_clause_presence_witness :
    (RateLimitError.log
        (RateLimitError.construct "Too many requests" (some 30)).1).2 =
      [RateLimitError.specRender "Too many requests" (some 30)] :=
  (c5_optional_clause_presence.2.2.2.2.2.2.2.2.2.2.2.2.2.2.1) "Too many requests" 30
    (by decide)

/-- C6: for every concrete kind and every message, the inherited string
conversion of a constructed instance equals `{kind}: {message}` — independent
of the kind-specific rendering template used by `log()` and of which optional
fields are present (the arguments are universally quantified).  For example
`ApiError` with message `Not Found` converts to `ApiError: Not Found`. -/
theorem c6_toString_kind_colon_message :
    (∀ (s : Int) (m : String) (r : Option String),
        baseToString ((ApiError.construct s m r).1).name
          ((ApiError.construct s m r).1).message = "ApiError: " ++ m) ∧
    (∀ (m : String) (c : Option String),
        baseToString ((NetworkError.construct m c).1).name
          ((NetworkError.construct m c).1).message = "NetworkError: " ++ m) ∧
    (∀ (m : String) (s : Option String),
        baseToString ((ParseError.construct m s).1).name
          ((ParseError.construct m s).1).message = "ParseError: " ++ m) ∧
    (∀ (m : String) (f : Option (List String)),
        baseToString ((ValidationError.construct m f).1).name
          ((ValidationError.construct m f).1).message =
            "ValidationError: " ++ m) ∧
    (∀ (m : String) (u : Option String),
        baseToString ((AuthenticationError.construct m u).1).name
          ((AuthenticationError.construct m u).1).message =
            "AuthenticationError: " ++ m) ∧
    (∀ (m : String) (r a : Option String),
        baseToString ((AuthorizationError.construct m r a).1).name
          ((AuthorizationError.construct m r a).1).message =
            "AuthorizationError: " ++ m) ∧
    (∀ (m : String) (t : Option Int),
        baseToString ((RateLimitError.construct m t).1).name
          ((RateLimitError.construct m t).1).message =
            "RateLimitError: " ++ m) ∧
    (∀ (m : String) (op : Option String),
        baseToString ((DatabaseError.construct m op).1).name
          ((DatabaseError.construct m op).1).message =
            "DatabaseError: " ++ m) ∧
    (∀ (m : String) (k : Option String),
        baseToString ((ConfigurationError.construct m k).1).name
          ((ConfigurationError.construct m k).1).message =
            "ConfigurationError: " ++ m) ∧
    (∀ m svc : String,
        baseToString ((ExternalServiceError.construct m svc).1).name
          ((ExternalServiceError.construct m svc).1).message =
            "ExternalServiceError: " ++ m) ∧
    (∀ (m : String) (p : Option String),
        baseToString ((FileNotFoundError.construct m p).1).name
          ((FileNotFoundError.construct m p).1).message =
            "FileNotFoundError: " ++ m) ∧
    (∀ m d : String,
        baseToString ((LogDirectoryNotFoundError.construct m d).1).name
          ((LogDirectoryNotFoundError.construct m d).1).message =
            "LogDirectoryNotFoundError: " ++ m) ∧
    (∀ (m f : String) (op : Option String),
        baseToString ((LogFileOperationError.construct m f op).1).name
          ((LogFileOperationError.construct m f op).1).message =
            "LogFileOperationError: " ++ m) ∧
    (∀ (m : String) (c : Option String),
        baseToString ((LoggerInitializationError.construct m c).1).name
          ((LoggerInitializationError.construct m c).1).message =
            "LoggerInitializationError: " ++ m) ∧
    baseToString ((ApiError.construct 404 "Not Found" (some "REQ123")).1).name
      ((ApiError.construct 404 "Not Found" (some "REQ123")).1).message =
        "ApiError: Not Found" := by
  refine ⟨?_, ?_, ?_, ?_, ?_, ?_, ?_, ?_, ?_, ?_, ?_, ?_, ?_, ?_, ?_⟩ <;>
    intros <;> rfl

/-- C7: for every concrete kind and every combination of constructor
arguments, reading back each declared field of the constructed instance
returns exactly the value passed in, and an omitted optional field (the
`none` instantiation) reads back as absent — not as a sentinel value. -/
theorem c7_field_roundtrip :
    (∀ (s : Int) (m : String) (r : Option String),
        ((ApiError.construct s m r).1).status = some s ∧
        ((ApiError.construct s m r).1).requestId = r ∧
        ((ApiError.construct s m r).1).message = some m) ∧
    (∀ (m : String) (c : Option String),
        ((NetworkError.construct m c).1).code = c ∧
        ((NetworkError.construct m c).1).message = some m) ∧
    (∀ (m : String) (s : Option String),
        ((ParseError.construct m s).1).source = s ∧
        ((ParseError.construct m s).1).message = some m) ∧
    (∀ (m : String) (f : Option (List String)),
        ((ValidationError.construct m f).1).fields = f ∧
        ((ValidationError.construct m f).1).message = some m) ∧
    (∀ (m : String) (u : Option String),
        ((AuthenticationError.construct m u).1).userId = u ∧
        ((AuthenticationError.construct m u).1).message = some m) ∧
    (∀ (m : String) (r a : Option String),
        ((AuthorizationError.construct m r a).1).resource = r ∧
        ((AuthorizationError.construct m r a).1).action = a ∧
        ((AuthorizationError.construct m r a).1).message = some m) ∧
    (∀ (m : String) (t : Option Int),
        ((RateLimitError.construct m t).1).retryAfter = t ∧
        ((RateLimitError.construct m t).1).message = some m) ∧
    (∀ (m : String) (op : Option String),
        ((DatabaseError.construct m op).1).operation = op ∧
        ((DatabaseError.construct m op).1).message = some m) ∧
    (∀ (m : String) (k : Option String),
        ((ConfigurationError.construct m k).1).configKey = k ∧
        ((ConfigurationError.construct m k).1).message = some m) ∧
    (∀ m svc : String,
        ((ExternalServiceError.construct m svc).1).serviceName = some svc ∧
        ((ExternalServiceError.construct m svc).1).message = some m) ∧
    (∀ (m : String) (p : Option String),
        ((FileNotFoundError.construct m p).1).path = p ∧
        ((FileNotFoundError.construct m p).1).message = some m) ∧
    (∀ m d : String,
        ((LogDirectoryNotFoundError.construct m d).1).directoryPath = some d ∧
        ((LogDirectoryNotFoundError.construct m d).1).message = some m) ∧
    (∀ (m f : String) (op : Option String),
        ((LogFileOperationError.construct m f op).1).filePath = some f ∧
        ((LogFileOperationError.construct m f op).1).operation = op ∧
        ((LogFileOperationError.construct m f op).1).message = some m) ∧
    (∀ (m : String) (c : Option String),
        ((LoggerInitializationError.construct m c).1).component = c ∧
        ((LoggerInitializationError.construct m c).1).message = some m) ∧
    (∀ (s : Int) (m : String),
        ((ApiError.construct s m none).1).requestId = none) := by
  refine ⟨?_, ?_, ?_, ?_, ?_, ?_, ?_, ?_, ?_, ?_, ?_, ?_, ?_, ?_, ?_⟩ <;>
    intros <;>
    first
      | exact ⟨rfl, rfl, rfl⟩
      | exact ⟨rfl, rfl⟩
      | rfl

/-- C8: for every concrete kind and every instance, calling `log()` twice in
succession produces two identical emissions, and no observable state of the
instance changes between or across the calls. -/
theorem c8_log_twice_identical :
    (∀ o : ApiError,
        (ApiError.log ((ApiError.log o).1)).2 = (ApiError.log o).2 ∧
        (ApiError.log ((ApiError.log o).1)).1 = o ∧ (ApiError.log o).1 = o) ∧
    (∀ o : NetworkError,
        (NetworkError.log ((NetworkError.log o).1)).2 = (NetworkError.log o).2 ∧
        (NetworkError.log ((NetworkError.log o).1)).1 = o ∧
        (NetworkError.log o).1 = o) ∧
    (∀ o : ParseError,
        (ParseError.log ((ParseError.log o).1)).2 = (ParseError.log o).2 ∧
        (ParseError.log ((ParseError.log o).1)).1 = o ∧
        (ParseError.log o).1 = o) ∧
    (∀ o : ValidationError,
        (ValidationError.log ((ValidationError.log o).1)).2 =
          (ValidationError.log o).2 ∧
        (ValidationError.log ((ValidationError.log o).1)).1 = o ∧
        (ValidationError.log o).1 = o) ∧
    (∀ o : AuthenticationError,
        (AuthenticationError.log ((AuthenticationError.log o).1)).2 =
          (AuthenticationError.log o).2 ∧
        (AuthenticationError.log ((AuthenticationError.log o).1)).1 = o ∧
        (AuthenticationError.log o).1 = o) ∧
    (∀ o : AuthorizationError,
        (AuthorizationError.log ((AuthorizationError.log o).1)).2 =
          (AuthorizationError.log o).2 ∧
        (AuthorizationError.log ((AuthorizationError.log o).1)).1 = o ∧
        (AuthorizationError.log o).1 = o) ∧
    (∀ o : RateLimitError,
        (RateLimitError.log ((RateLimitError.log o).1)).2 =
          (RateLimitError.log o).2 ∧
        (RateLimitError.log ((RateLimitError.log o).1)).1 = o ∧
        (RateLimitError.log o).1 = o) ∧
    (∀ o : DatabaseError,
        (DatabaseError.log ((DatabaseError.log o).1)).2 = (DatabaseError.log o).2 ∧
        (DatabaseError.log ((DatabaseError.log o).1)).1 = o ∧
        (DatabaseError.log o).1 = o) ∧
    (∀ o : ConfigurationError,
        (ConfigurationError.log ((ConfigurationError.log o).1)).2 =
          (ConfigurationError.log o).2 ∧
        (ConfigurationError.log ((ConfigurationError.log o).1)).1 = o ∧
        (ConfigurationError.log o).1 = o) ∧
    (∀ o : ExternalServiceError,
        (ExternalServiceError.log ((ExternalServiceError.log o).1)).2 =
          (ExternalServiceError.log o).2 ∧
        (ExternalServiceError.log ((ExternalServiceError.log o).1)).1 = o ∧
        (ExternalServiceError.log o).1 = o) ∧
    (∀ o : FileNotFoundError,
        (FileNotFoundError.log ((FileNotFoundError.log o).1)).2 =
          (FileNotFoundError.log o).2 ∧
        (FileNotFoundError.log ((FileNotFoundError.log o).1)).1 = o ∧
        (FileNotFoundError.log o).1 = o) ∧
    (∀ o : LogDirectoryNotFoundError,
        (LogDirectoryNotFoundError.log ((LogDirectoryNotFoundError.log o).1)).2 =
          (LogDirectoryNotFoundError.log o).2 ∧
        (LogDirectoryNotFoundError.log ((LogDirectoryNotFoundError.log o).1)).1 = o ∧
        (LogDirectoryNotFoundError.log o).1 = o) ∧
    (∀ o : LogFileOperationError,
        (LogFileOperationError.log ((LogFileOperationError.log o).1)).2 =
          (LogFileOperationError.log o).2 ∧
        (LogFileOperationError.log ((LogFileOperationError.log o).1)).1 = o ∧
        (LogFileOperationError.log o).1 = o) ∧
    (∀ o : LoggerInitializationError,
        (LoggerInitializationError.log ((LoggerInitializationError.log o).1)).2 =
          (LoggerInitializationError.log o).2 ∧
        (LoggerInitializationError.log ((LoggerInitializationError.log o).1)).1 = o ∧
        (LoggerInitializationError.log o).1 = o) := by
  refine ⟨?_, ?_, ?_, ?_, ?_, ?_, ?_, ?_, ?_, ?_, ?_, ?_, ?_, ?_⟩ <;>
    intros <;> exact ⟨rfl, rfl, rfl⟩

/-- C9: for every concrete error instance, the operations available on it
leave the kind discriminant, the message and every declared field unchanged
(`log` returns the object unmodified, and the string conversion is a pure
function of the object); each kind applies its own fixed rendering rule, with
the constructed discriminant equal to the registered kind name; and the
fourteen kind names are pairwise distinct, so the discriminant uniquely
determines which rendering rule applies. -/
theorem c9_kind_and_fields_immutable :
    (∀ o : ApiError, (ApiError.log o).1 = o ∧
        (ApiError.log o).2 = [ApiError.logMsg o]) ∧
    (∀ o : NetworkError, (NetworkError.log o).1 = o ∧
        (NetworkError.log o).2 = [NetworkError.logMsg o]) ∧
    (∀ o : ParseError, (ParseError.log o).1 = o ∧
        (ParseError.log o).2 = [ParseError.logMsg o]) ∧
    (∀ o : ValidationError, (ValidationError.log o).1 = o ∧
        (ValidationError.log o).2 = [ValidationError.logMsg o]) ∧
    (∀ o : AuthenticationError, (AuthenticationError.log o).1 = o ∧
        (AuthenticationError.log o).2 = [AuthenticationError.logMsg o]) ∧
    (∀ o : AuthorizationError, (AuthorizationError.log o).1 = o ∧
        (AuthorizationError.log o).2 = [AuthorizationError.logMsg o]) ∧
    (∀ o : RateLimitError, (RateLimitError.log o).1 = o ∧
        (RateLimitError.log o).2 = [RateLimitError.logMsg o]) ∧
    (∀ o : DatabaseError, (DatabaseError.log o).1 = o ∧
        (DatabaseError.log o).2 = [DatabaseError.logMsg o]) ∧
    (∀ o : ConfigurationError, (ConfigurationError.log o).1 = o ∧
        (ConfigurationError.log o).2 = [ConfigurationError.logMsg o]) ∧
    (∀ o : ExternalServiceError, (ExternalServiceError.log o).1 = o ∧
        (ExternalServiceError.log o).2 = [ExternalServiceError.logMsg o]) ∧
    (∀ o : FileNotFoundError, (FileNotFoundError.log o).1 = o ∧
        (FileNotFoundError.log o).2 = [FileNotFoundError.logMsg o]) ∧
    (∀ o : LogDirectoryNotFoundError, (LogDirectoryNotFoundError.log o).1 = o ∧
        (LogDirectoryNotFoundError.log o).2 =
          [LogDirectoryNotFoundError.logMsg o]) ∧
    (∀ o : LogFileOperationError, (LogFileOperationError.log o).1 = o ∧
        (LogFileOperationError.log o).2 = [LogFileOperationError.logMsg o]) ∧
    (∀ o : LoggerInitializationError, (LoggerInitializationError.log o).1 = o ∧
        (LoggerInitializationError.log o).2 =
          [LoggerInitializationError.logMsg o]) ∧
    (∀ (s : Int) (m : String) (r : Option String),
        ((ApiError.construct s m r).1).name = some "ApiError") ∧
    (∀ (m : String) (c : Option String),
        ((NetworkError.construct m c).1).name = some "NetworkError") ∧
    (∀ (m : String) (s : Option String),
        ((ParseError.construct m s).1).name = some "ParseError") ∧
    (∀ (m : String) (f : Option (List String)),
        ((ValidationError.construct m f).1).name = some "ValidationError") ∧
    (∀ (m : String) (u : Option String),
        ((AuthenticationError.construct m u).1).name =
          some "AuthenticationError") ∧
    (∀ (m : String) (r a : Option String),
        ((AuthorizationError.construct m r a).1).name =
          some "AuthorizationError") ∧
    (∀ (m : String) (t : Option Int),
        ((RateLimitError.construct m t).1).name = some "RateLimitError") ∧
    (∀ (m : String) (op : Option String),
        ((DatabaseError.construct m op).1).name = some "DatabaseError") ∧
    (∀ (m : String) (k : Option String),
        ((ConfigurationError.construct m k).1).name =
          some "ConfigurationError") ∧
    (∀ m svc : String,
        ((ExternalServiceError.construct m svc).1).name =
          some "ExternalServiceError") ∧
    (∀ (m : String) (p : Option String),
        ((FileNotFoundError.construct m p).1).name =
          some "FileNotFoundError") ∧
    (∀ m d : String,
        ((LogDirectoryNotFoundError.construct m d).1).name =
          some "LogDirectoryNotFoundError") ∧
    (∀ (m f : String) (op : Option String),
        ((LogFileOperationError.construct m f op).1).name =
          some "LogFileOperationError") ∧
    (∀ (m : String) (c : Option String),
        ((LoggerInitializationError.construct m c).1).name =
          some "LoggerInitializationError") ∧
    (["ApiError", "NetworkError", "ParseError", "ValidationError",
      "AuthenticationError", "AuthorizationError", "RateLimitError",
      "DatabaseError", "ConfigurationError", "ExternalServiceError",
      "FileNotFoundError", "LogDirectoryNotFoundError",
      "LogFileOperationError", "LoggerInitializationError"]
        : List String).Nodup := by
  refine ⟨?_, ?_, ?_, ?_, ?_, ?_, ?_, ?_, ?_, ?_, ?_, ?_, ?_, ?_,
    ?_, ?_, ?_, ?_, ?_, ?_, ?_, ?_, ?_, ?_, ?_, ?_, ?_, ?_, ?_⟩ <;>
    first
      | (intros; exact ⟨rfl, rfl⟩)
      | (intros; rfl)
      | decide

/-- C10: constructing `ValidationError` with a present but empty `fields`
array and invoking `log()` on the fully constructed instance emits
`Validation Error: {message} (Fields: )` — the clause is appended with empty
content rather than omitted, because presence is tested by truthiness of the
array and an empty array is truthy. -/
theorem c10_empty_fields_array_clause :
    (∀ m : String,
        (ValidationError.log (ValidationError.construct m (some [])).1).2 =
          ["Validation Error: " ++ m ++ " (Fields: )"]) ∧
    (ValidationError.log
        (ValidationError.construct "Invalid input" (some [])).1).2 =
      ["Validation Error: Invalid input (Fields: )"] ∧
    jsTruthyArr (some []) = true := by
  refine ⟨?_, by decide, by decide⟩
  intro m
  simp [ValidationError.log, ValidationError.construct, ValidationError.logMsg,
    jsStrOfStr, jsTruthyArr, jsJoinArr, jsJoin]
  rfl
